import Mathlib

/-!
Verification of the Genshin Impact Tracker record store.

The definitions below are a shallow embedding of the class ItemTracker
from src/main.py. Python dictionaries representing items become the
structure Item; the mutable object state (the item list and the data
file path) becomes the structure Store, and every method becomes a pure
function that takes the Store and returns its result together with the
new Store. Floating point coordinates are modelled by rational numbers;
the current timestamp produced by datetime.now is passed in as an
explicit string argument. File input and output is modelled by an
explicit FileContent value: the functions save_data and load_data state
what the Python code writes to and reads from the JSON file.
-/

namespace GenshinTracker

/-- One item record, mirroring the Python dictionary built in add_item:
keys name, region, x, y, type, collected, date_added, notes. -/
structure Item where
  name : String
  region : String
  x : ℚ
  y : ℚ
  type : String
  collected : Bool
  date_added : String
  notes : String
deriving Repr, DecidableEq

/-- The mutable state of an ItemTracker object: the data file path and
the ordered list of items. -/
structure Store where
  data_file : String
  items : List Item
deriving Repr, DecidableEq

/-- The Python expression s.lower(), applied character by character. -/
def pyLower (s : String) : String := ⟨s.data.map Char.toLower⟩

/-- The duplicate test from the loop in add_item: case-insensitive
match on name and region and both coordinates within 0.1. -/
def isNearDuplicate (item : Item) (name region : String) (x y : ℚ) : Bool :=
  pyLower item.name == pyLower name &&
  pyLower item.region == pyLower region &&
  decide (|item.x - x| < (1 : ℚ)/10) &&
  decide (|item.y - y| < (1 : ℚ)/10)

/-- The method add_item: scans for a near duplicate and returns False
leaving the list unchanged if one exists; otherwise appends a fresh
record with collected = False, the current timestamp and empty notes,
and returns True. The timestamp string is the argument now. -/
def add_item (s : Store) (name region : String) (x y : ℚ)
    (item_type : String) (now : String) : Bool × Store :=
  if s.items.any (fun item => isNearDuplicate item name region x y) then
    (false, s)
  else
    (true, { s with items := s.items ++
      [{ name := name, region := region, x := x, y := y,
         type := item_type, collected := false,
         date_added := now, notes := "" }] })

/-- The body of the in-range branch of mark_collected: sets the
collected flag and overwrites notes only when the notes argument is a
truthy (nonempty) string. -/
def updateItem (collected : Bool) (notes : String) (item : Item) : Item :=
  { item with
    collected := collected
    notes := if notes = "" then item.notes else notes }

/-- The method mark_collected: bounds check 0 <= index < len(items),
then in-place update of the indexed item; returns False and changes
nothing when the index is out of range. -/
def mark_collected (s : Store) (index : Int) (collected : Bool)
    (notes : String) : Bool × Store :=
  if h : 0 ≤ index ∧ index < (s.items.length : Int) then
    let old := s.items.get ⟨index.toNat, by omega⟩
    (true, { s with items := s.items.set index.toNat (updateItem collected notes old) })
  else
    (false, s)

/-- The method get_all_items. -/
def get_all_items (s : Store) : List Item := s.items

/-- The method get_items_by_region: the list comprehension filtering on
a case-insensitive region match. -/
def get_items_by_region (s : Store) (region : String) : List Item :=
  s.items.filter (fun item => pyLower item.region == pyLower region)

/-- The dictionary returned by get_collected_stats. -/
structure Stats where
  total : Nat
  collected : Nat
  remaining : Nat
  percentage : ℚ
deriving Repr, DecidableEq

/-- The method get_collected_stats: counts and the collected
percentage, which is 0 when the list is empty. -/
def get_collected_stats (s : Store) : Stats :=
  let total := s.items.length
  let collected := (s.items.filter (fun item => item.collected)).length
  { total := total
    collected := collected
    remaining := total - collected
    percentage := if total > 0 then (collected : ℚ) / (total : ℚ) * 100 else 0 }

/-- The JSON data file as the loader distinguishes its cases: the file
may be absent, unreadable or unparsable, parsable but without an items
key, or well formed with metadata and an item list. -/
inductive FileContent where
  | missing
  | malformed
  | noItemsKey
  | wellFormed (save_date : String) (total_items : Nat) (items : List Item)
deriving Repr, DecidableEq

/-- The method save_data: under the try block it writes the metadata
(save timestamp, item count) and the full item list and returns True;
any I/O or serialization exception, modelled by the flag ioFail, is
caught and reported as False. The file content is None when the write
failed (its state is then unspecified). The method never assigns to
self.items or self.data_file, so the store comes back unchanged. -/
def save_data (s : Store) (ioFail : Bool) (now : String) :
    Bool × Option FileContent × Store :=
  if ioFail then
    (false, none, s)
  else
    (true, some (FileContent.wellFormed now s.items.length s.items), s)

/-- The method load_data, as a function of the file content: a missing
file prints a message, resets the list to empty and returns False; a
parse exception or a missing items key resets the list to empty and
returns False; a well formed file installs its item list and returns
True. The result pairs the returned Boolean with the new item list. -/
def load_data (f : FileContent) : Bool × List Item :=
  match f with
  | FileContent.missing => (false, [])
  | FileContent.malformed => (false, [])
  | FileContent.noItemsKey => (false, [])
  | FileContent.wellFormed _ _ items => (true, items)

/-- The near-duplicate relation as the specification words it: the stored
name equals the argument name case-insensitively, likewise the region, and
both coordinate distances are below 0.1. -/
def specNearDuplicate (item : Item) (name region : String) (x y : ℚ) : Prop :=
  pyLower item.name = pyLower name ∧ pyLower item.region = pyLower region ∧
  |item.x - x| < (1 : ℚ)/10 ∧ |item.y - y| < (1 : ℚ)/10

/-- Two item records are proximity duplicates of each other, in the words of
the specification glossary. -/
def proximityDup (a b : Item) : Prop :=
  specNearDuplicate a b.name b.region b.x b.y

/-- The invariant of section 3 of the specification: no two distinct stored
items are proximity duplicates of each other. -/
def noDupInvariant (items : List Item) : Prop :=
  items.Pairwise (fun a b => ¬ proximityDup a b)

/-- A store with no items, as built by the constructor when the data file is
absent. -/
def emptyStore : Store := { data_file := "data/items.json", items := [] }

/-- A concrete item used to instantiate proved theorems. -/
def sampleItem : Item :=
  { name := "Anemoculus", region := "Mondstadt", x := 100, y := 200,
    type := "Ресурс", collected := false,
    date_added := "2024-01-01 00:00:00", notes := "old note" }

/-- A second concrete item used to instantiate proved theorems. -/
def sampleItem2 : Item :=
  { name := "Geoculus", region := "Liyue", x := -5, y := 3,
    type := "Ресурс", collected := true,
    date_added := "2024-01-02 00:00:00", notes := "" }

/-- A concrete two-item store used to instantiate proved theorems. -/
def sampleStore : Store :=
  { data_file := "data/items.json", items := [sampleItem, sampleItem2] }

theorem isNearDuplicate_iff_spec (item : Item) (name region : String) (x y : ℚ) :
    isNearDuplicate item name region x y = true ↔
      specNearDuplicate item name region x y := by
  simp [isNearDuplicate, specNearDuplicate, Bool.and_eq_true,
    decide_eq_true_iff, beq_iff_eq, and_assoc]

/-- C1: add returns failure (False, and the embedding is a total function, so
nothing is thrown) exactly when some stored item is a near duplicate of the
arguments; in particular adding Chest A at (10, 20) in Mondstadt to the empty
store succeeds and a second add of chest a at (10.05, 20) in mondstadt is then
rejected. -/
theorem add_item_false_iff_duplicate :
    (∀ (s : Store) (name region : String) (x y : ℚ) (itemType now : String),
      ((add_item s name region x y itemType now).1 = false ↔
        ∃ item ∈ s.items, specNearDuplicate item name region x y)) ∧
    ((add_item emptyStore "Chest A" "Mondstadt" 10 20 "Сундук" "t1").1 = true ∧
      (add_item (add_item emptyStore "Chest A" "Mondstadt" 10 20 "Сундук" "t1").2
        "chest a" "mondstadt" 10.05 20 "Ресурс" "t2").1 = false) := by
  refine ⟨?_, ?_, ?_⟩
  · intro s name region x y itemType now
    unfold add_item
    by_cases h : s.items.any (fun item => isNearDuplicate item name region x y) = true
    · rw [if_pos h]
      rw [List.any_eq_true] at h
      obtain ⟨item, hmem, hdup⟩ := h
      exact iff_of_true rfl
        ⟨item, hmem, (isNearDuplicate_iff_spec item name region x y).mp hdup⟩
    · rw [if_neg h]
      rw [List.any_eq_true] at h
      refine iff_of_false (by simp) ?_
      rintro ⟨item, hmem, hdup⟩
      exact h ⟨item, hmem, (isNearDuplicate_iff_spec item name region x y).mpr hdup⟩
  · rfl
  · have h1 : (pyLower "Chest A" == pyLower "chest a") = true := by decide
    have h2 : (pyLower "Mondstadt" == pyLower "mondstadt") = true := by decide
    have h3 : |(10 : ℚ) - 10.05| < (10 : ℚ)⁻¹ := by
      rw [abs_sub_lt_iff]; constructor <;> norm_num
    have h4 : |(20 : ℚ) - 20| < (1 : ℚ)/10 := by norm_num
    simp [add_item, emptyStore, isNearDuplicate, h1, h2, h3, h4]

/-- C4: mark_collected with an out-of-range index returns False and leaves
the store, its item list and every field untouched. -/
theorem mark_collected_out_of_range (s : Store) (index : Int)
    (collected : Bool) (notes : String)
    (h : index < 0 ∨ (s.items.length : Int) ≤ index) :
    mark_collected s index collected notes = (false, s) := by
  have hcond : ¬ (0 ≤ index ∧ index < (s.items.length : Int)) := by omega
  unfold mark_collected
  rw [dif_neg hcond]

/-- Witness for C4: index 5 is out of range in the two-item sample store and
mark_collected rejects it without change. -/
theorem mark_collected_out_of_range_witness :
    mark_collected sampleStore 5 true "note" = (false, sampleStore) :=
  mark_collected_out_of_range sampleStore 5 true "note"
    (Or.inr (by norm_num [sampleStore, sampleItem, sampleItem2]))

/-- C6: when no stored item is a near duplicate of the arguments, add_item
returns True and the new store is the old one with exactly one record
appended at the end, carrying the five arguments, collected = False, the
current timestamp and empty notes. -/
theorem add_item_success_appends (s : Store) (name region : String) (x y : ℚ)
    (itemType now : String)
    (h : ∀ item ∈ s.items, ¬ specNearDuplicate item name region x y) :
    add_item s name region x y itemType now =
      (true, { s with items := s.items ++
        [{ name := name, region := region, x := x, y := y, type := itemType,
           collected := false, date_added := now, notes := "" }] }) := by
  have hcond : ¬ (s.items.any
      (fun item => isNearDuplicate item name region x y) = true) := by
    rw [List.any_eq_true]
    rintro ⟨item, hmem, hdup⟩
    exact h item hmem ((isNearDuplicate_iff_spec item name region x y).mp hdup)
  unfold add_item
  rw [if_neg hcond]

/-- Witness for C6: adding Chest A to the empty store appends the one new
record. -/
theorem add_item_success_appends_witness :
    add_item emptyStore "Chest A" "Mondstadt" 10 20 "Сундук" "t1" =
      (true, { emptyStore with items := emptyStore.items ++
        [{ name := "Chest A", region := "Mondstadt", x := 10, y := 20,
           type := "Сундук", collected := false,
           date_added := "t1", notes := "" }] }) :=
  add_item_success_appends emptyStore "Chest A" "Mondstadt" 10 20 "Сундук" "t1"
    (by simp [emptyStore])

/-- C9: an in-range mark_collected call returns True, keeps the data file
path, the list length and every other item unchanged, and on the indexed
item sets the collected flag, keeps name, region, coordinates, type and the
date, keeps the old notes when the notes argument is the empty string, and
installs the new notes otherwise. -/
theorem mark_collected_in_range (s : Store) (index : Int) (c : Bool)
    (notes : String)
    (h0 : 0 ≤ index) (h1 : index < (s.items.length : Int)) :
    (mark_collected s index c notes).1 = true ∧
    (mark_collected s index c notes).2.data_file = s.data_file ∧
    (mark_collected s index c notes).2.items.length = s.items.length ∧
    (∀ j : Nat, j ≠ index.toNat →
      (mark_collected s index c notes).2.items[j]? = s.items[j]?) ∧
    ∃ old upd : Item, s.items[index.toNat]? = some old ∧
      (mark_collected s index c notes).2.items[index.toNat]? = some upd ∧
      upd.collected = c ∧ upd.name = old.name ∧ upd.region = old.region ∧
      upd.x = old.x ∧ upd.y = old.y ∧ upd.type = old.type ∧
      upd.date_added = old.date_added ∧
      (notes = "" → upd.notes = old.notes) ∧
      (notes ≠ "" → upd.notes = notes) := by
  have hcond : 0 ≤ index ∧ index < (s.items.length : Int) := ⟨h0, h1⟩
  have hlt : index.toNat < s.items.length := by omega
  unfold mark_collected
  rw [dif_pos hcond]
  refine ⟨rfl, rfl, List.length_set .., ?_, ?_⟩
  · intro j hj
    rw [List.getElem?_set, if_neg (fun e => hj e.symm)]
  · refine ⟨s.items.get ⟨index.toNat, hlt⟩,
      updateItem c notes (s.items.get ⟨index.toNat, hlt⟩),
      List.getElem?_eq_getElem hlt, ?_, ?_⟩
    · rw [List.getElem?_set, if_pos rfl, if_pos hlt]
    · unfold updateItem
      refine ⟨rfl, rfl, rfl, rfl, rfl, rfl, rfl, ?_, ?_⟩
      · intro he; simp [he]
      · intro he; simp [he]

/-- Witness for C9: marking item 0 of the sample store collected with empty
notes keeps its old notes. -/
theorem mark_collected_in_range_witness :
    (mark_collected sampleStore 0 true "").1 = true ∧
    (mark_collected sampleStore 0 true "").2.data_file = sampleStore.data_file ∧
    (mark_collected sampleStore 0 true "").2.items.length =
      sampleStore.items.length ∧
    (∀ j : Nat, j ≠ (0 : Int).toNat →
      (mark_collected sampleStore 0 true "").2.items[j]? =
        sampleStore.items[j]?) ∧
    ∃ old upd : Item, sampleStore.items[(0 : Int).toNat]? = some old ∧
      (mark_collected sampleStore 0 true "").2.items[(0 : Int).toNat]? =
        some upd ∧
      upd.collected = true ∧ upd.name = old.name ∧ upd.region = old.region ∧
      upd.x = old.x ∧ upd.y = old.y ∧ upd.type = old.type ∧
      upd.date_added = old.date_added ∧
      ((("" : String) = "") → upd.notes = old.notes) ∧
      ((("" : String) ≠ "") → upd.notes = ("" : String)) :=
  mark_collected_in_range sampleStore 0 true "" (by norm_num)
    (by norm_num [sampleStore, sampleItem, sampleItem2])

/-- C5: the statistics report the item count as total, the number of items
with a true collected flag as collected, remaining so that collected plus
remaining is total, and a percentage of 0 for an empty list and of
collected divided by total times 100 otherwise. -/
theorem get_collected_stats_spec (s : Store) :
    (get_collected_stats s).total = s.items.length ∧
    (get_collected_stats s).collected =
      s.items.countP (fun item => item.collected) ∧
    (get_collected_stats s).collected ≤ (get_collected_stats s).total ∧
    (get_collected_stats s).total =
      (get_collected_stats s).collected + (get_collected_stats s).remaining ∧
    (s.items.length = 0 → (get_collected_stats s).percentage = 0) ∧
    (s.items.length ≠ 0 → (get_collected_stats s).percentage =
      ((get_collected_stats s).collected : ℚ) /
        ((get_collected_stats s).total : ℚ) * 100) := by
  have hle : (s.items.filter (fun item => item.collected)).length ≤
      s.items.length := List.length_filter_le _ _
  refine ⟨?_, ?_, ?_, ?_, ?_, ?_⟩
  · simp [get_collected_stats]
  · simp [get_collected_stats, List.countP_eq_length_filter]
  · simp only [get_collected_stats]
    exact hle
  · simp only [get_collected_stats]
    omega
  · intro h
    simp only [get_collected_stats]
    rw [if_neg (by omega)]
  · intro h
    simp only [get_collected_stats]
    rw [if_pos (by omega)]

/-- C7: the by-region query returns exactly the stored items whose region
matches the argument case-insensitively, as a sublist of the item list; in
particular the query for mondstadt keeps every item whose region is
Mondstadt. -/
theorem get_items_by_region_spec (s : Store) (region : String) :
    (∀ item : Item, item ∈ get_items_by_region s region ↔
      item ∈ s.items ∧ pyLower item.region = pyLower region) ∧
    List.Sublist (get_items_by_region s region) s.items ∧
    (∀ item ∈ s.items, item.region = "Mondstadt" →
      item ∈ get_items_by_region s "mondstadt") := by
  refine ⟨?_, List.filter_sublist _, ?_⟩
  · intro item
    simp [get_items_by_region, List.mem_filter, beq_iff_eq]
  · intro item hmem hreg
    simp only [get_items_by_region, List.mem_filter, beq_iff_eq]
    refine ⟨hmem, ?_⟩
    rw [hreg]
    decide

/-- C10: save_data never touches the in-memory store: whether it reports
success or failure, the item list and the data file path come back
identical. -/
theorem save_data_preserves_store (s : Store) (ioFail : Bool) (now : String) :
    (save_data s ioFail now).2.2 = s := by
  unfold save_data
  cases ioFail <;> rfl

/-- C2: when save_data reports success, loading the file it wrote restores
exactly the item list the store had at save time, field for field and in
order. -/
theorem save_load_roundtrip (s : Store) (ioFail : Bool) (now : String)
    (f : FileContent)
    (hs : (save_data s ioFail now).1 = true)
    (hf : (save_data s ioFail now).2.1 = some f) :
    load_data f = (true, s.items) := by
  unfold save_data at hs hf
  cases ioFail with
  | true => simp at hs
  | false =>
    simp only [Bool.false_eq_true, if_false, Option.some.injEq] at hf
    rw [← hf]
    rfl

/-- Witness for C2: a successful save of the sample store round-trips its
two items. -/
theorem save_load_roundtrip_witness :
    load_data (FileContent.wellFormed "t" sampleStore.items.length
      sampleStore.items) = (true, sampleStore.items) :=
  save_load_roundtrip sampleStore false "t"
    (FileContent.wellFormed "t" sampleStore.items.length sampleStore.items)
    rfl rfl

/-- Counterexample to C3 as stated: when the data file does not exist the
code prints a message, resets the item list to empty and returns False, so
load reports failure, not success. -/
theorem load_data_missing_file_fails :
    load_data FileContent.missing = (false, []) := rfl

/-- C3 amended: load reports success exactly on a well formed file with an
items key; a missing file, a malformed file and a parsable file without an
items key all leave the item list empty and report failure (returning
False, without throwing). -/
theorem load_data_cases :
    (∀ f : FileContent, (load_data f).1 = true ↔
      ∃ d t its, f = FileContent.wellFormed d t its) ∧
    load_data FileContent.missing = (false, []) ∧
    load_data FileContent.malformed = (false, []) ∧
    load_data FileContent.noItemsKey = (false, []) ∧
    (∀ (d : String) (t : Nat) (its : List Item),
      load_data (FileContent.wellFormed d t its) = (true, its)) := by
  refine ⟨?_, rfl, rfl, rfl, fun d t its => rfl⟩
  intro f
  cases f with
  | missing => simp [load_data]
  | malformed => simp [load_data]
  | noItemsKey => simp [load_data]
  | wellFormed d t its => simp [load_data]

theorem proximityDup_updateItem_left (c : Bool) (notes : String) (a b : Item) :
    proximityDup (updateItem c notes a) b ↔ proximityDup a b := by
  simp [proximityDup, specNearDuplicate, updateItem]

theorem proximityDup_updateItem_right (c : Bool) (notes : String) (a b : Item) :
    proximityDup a (updateItem c notes b) ↔ proximityDup a b := by
  simp [proximityDup, specNearDuplicate, updateItem]

theorem pairwise_noDup_set (l : List Item) (k : Nat) (hk : k < l.length)
    (c : Bool) (notes : String)
    (h : List.Pairwise (fun a b => ¬ proximityDup a b) l) :
    List.Pairwise (fun a b => ¬ proximityDup a b)
      (l.set k (updateItem c notes (l.get ⟨k, hk⟩))) := by
  rw [List.pairwise_iff_getElem] at h ⊢
  intro i j hi hj hij
  simp only [List.length_set] at hi hj
  rw [List.getElem_set, List.getElem_set]
  by_cases e1 : k = i
  · rw [if_pos e1, if_neg (by omega)]
    subst e1
    rw [proximityDup_updateItem_left]
    exact h k j hk hj hij
  · rw [if_neg e1]
    by_cases e2 : k = j
    · rw [if_pos e2]
      subst e2
      rw [proximityDup_updateItem_right]
      exact h i k hi hk hij
    · rw [if_neg e2]
      exact h i j hi hj hij

/-- C8: the no-proximity-duplicate invariant holds for the empty store and
is preserved by add_item (which checks for duplicates before appending) and
by mark_collected (which never changes name, region or coordinates). -/
theorem noDupInvariant_preserved :
    noDupInvariant ([] : List Item) ∧
    (∀ (s : Store) (name region : String) (x y : ℚ) (itemType now : String),
      noDupInvariant s.items →
      noDupInvariant (add_item s name region x y itemType now).2.items) ∧
    (∀ (s : Store) (index : Int) (c : Bool) (notes : String),
      noDupInvariant s.items →
      noDupInvariant (mark_collected s index c notes).2.items) := by
  refine ⟨List.Pairwise.nil, ?_, ?_⟩
  · intro s name region x y itemType now h
    unfold add_item
    by_cases hd : s.items.any
        (fun item => isNearDuplicate item name region x y) = true
    · rw [if_pos hd]
      exact h
    · rw [if_neg hd]
      unfold noDupInvariant at h ⊢
      refine List.pairwise_append.mpr ⟨h, List.pairwise_singleton _ _, ?_⟩
      intro a ha b hb
      rw [List.mem_singleton] at hb
      subst hb
      intro hdup
      rw [List.any_eq_true] at hd
      exact hd ⟨a, ha, (isNearDuplicate_iff_spec a name region x y).mpr hdup⟩
  · intro s index c notes h
    unfold mark_collected
    by_cases hcond : 0 ≤ index ∧ index < (s.items.length : Int)
    · rw [dif_pos hcond]
      exact pairwise_noDup_set s.items index.toNat (by omega) c notes h
    · rw [dif_neg hcond]
      exact h

end GenshinTracker
